import Mathlib

/-!
Verification of the sensor-gen repository's core: the profile registry,
the reading synthesizer (`generateReading`), the paced emission loop of
`main`, serialization to newline-delimited JSON, and the final statistics
report (`printFinalStats`).

Floating-point (`float64`) values are modelled as exact rationals; the
random source (`*rand.Rand`) is modelled by an explicit record of the
draws it produces, with `rng.Float64()` draws ranging over `[0,1)` and
`rng.Intn n` draws ranging over `[0, n)` (stated as hypotheses where a
theorem needs them).
-/

namespace SensorGen

/-- One entry of the `sensorTypes` table in main.go (anonymous struct
with fields Type, Unit, Min, Max). -/
structure SensorTypeProfile where
  type : String
  unit : String
  min : ℚ
  max : ℚ
deriving DecidableEq, Repr

/-- The `sensorTypes` registry from main.go, verbatim. -/
def sensorTypes : List SensorTypeProfile :=
  [ ⟨"pressure", "psi", 200, 1500⟩,
    ⟨"temperature", "fahrenheit", -20, 180⟩,
    ⟨"flow_rate", "bbl/hr", 0, 50000⟩,
    ⟨"vibration", "mm/s", 0, 25⟩,
    ⟨"corrosion", "mpy", 0, 50⟩,
    ⟨"humidity", "percent", 0, 100⟩,
    ⟨"gas_detector", "ppm", 0, 1000⟩,
    ⟨"valve_position", "percent", 0, 100⟩ ]

/-- The `pipelineIDs` registry from main.go. -/
def pipelineIDs : List String :=
  [ "PIPE-TX-001", "PIPE-TX-002", "PIPE-OK-001", "PIPE-LA-001",
    "PIPE-NM-001", "PIPE-CO-001", "PIPE-WY-001", "PIPE-ND-001" ]

/-- The `statuses` registry from main.go (weighting by repetition). -/
def statuses : List String :=
  ["normal", "normal", "normal", "normal", "warning", "maintenance"]

/-- The `alertLevels` registry from main.go (most entries empty). -/
def alertLevels : List String :=
  ["", "", "", "", "", "low", "medium", "high"]

/-- The `Location` struct from main.go. -/
structure Location where
  lat : ℚ
  lon : ℚ
  milePost : ℚ
deriving DecidableEq, Repr

/-- The `SensorReading` struct from main.go (fields in declaration
order; JSON keys are attached at serialization). -/
structure SensorReading where
  sensorId : String
  timestamp : String
  type : String
  value : ℚ
  unit : String
  location : Location
  pipelineId : String
  status : String
  quality : ℚ
  alertLevel : String
deriving DecidableEq, Repr

/-- The sequence of values the `*rand.Rand` source hands to one call of
`generateReading`, plus the wall-clock timestamp string.  `Intn` results
are naturals (in range when the corresponding hypothesis holds);
`Float64` results are rationals in `[0,1)`. -/
structure RngDraws where
  typeIdx : Nat
  pipeIdx : Nat
  statusIdx : Nat
  alertIdx : Nat
  uValue : ℚ
  uAnom : ℚ
  uAnomMag : ℚ
  idNum : Nat
  uQuality : ℚ
  uLat : ℚ
  uLon : ℚ
  uMile : ℚ
  now : String
deriving DecidableEq, Repr

/-- Default profile used only to make list indexing total; every theorem
assumes the index is in range, as `rng.Intn(len(sensorTypes))` guarantees
in the source. -/
def dfltProfile : SensorTypeProfile := ⟨"", "", 0, 0⟩

/-- Zero-padded 4-digit rendering, the `%04d` verb of `fmt.Sprintf` for
arguments in `[0, 10000)`. -/
def pad4 (n : Nat) : String :=
  String.mk (List.replicate (4 - (Nat.repr n).length) '0') ++ Nat.repr n

/-- Shallow embedding of `generateReading` from main.go: selects one
entry of each registry list, computes the base value, applies the 2%
anomaly override, and assembles the record. -/
def generateReading (d : RngDraws) : SensorReading :=
  let st := sensorTypes.getD d.typeIdx dfltProfile
  let pipeline := pipelineIDs.getD d.pipeIdx ""
  let status := statuses.getD d.statusIdx ""
  let alert0 := alertLevels.getD d.alertIdx ""
  let baseValue := st.min + d.uValue * (st.max - st.min)
  let anomaly : Prop := d.uAnom < 2/100
  let value := if anomaly then st.max + d.uAnomMag * st.max * (2/10) else baseValue
  let alert := if anomaly then (if alert0 = "" then "medium" else alert0) else alert0
  { sensorId := "SNS-" ++ st.type.take 3 ++ "-" ++ pad4 d.idNum
    timestamp := d.now
    type := st.type
    value := value
    unit := st.unit
    location := { lat := 25 + d.uLat * 20, lon := -105 + d.uLon * 15,
                  milePost := d.uMile * 500 }
    pipelineId := pipeline
    status := status
    quality := 85/100 + d.uQuality * (15/100)
    alertLevel := alert }

/-- The batch-size computation of `main` (main.go lines 104-110):
start from 1000, lower to the rate when the rate is smaller, clamp to at
least 1. -/
def batchSizeOf (rate : Int) : Int :=
  let b : Int := 1000
  let b' := if rate < b then rate else b
  if b' < 1 then 1 else b'

/-- The tick-interval computation of `main` (main.go line 112) before
conversion to `time.Duration`: `float64(time.Second) * float64(batchSize)
/ float64(rate)`, with `float64` arithmetic modelled exactly over ℚ and
`time.Second = 10^9` nanoseconds. -/
def tickIntervalQ (rate : Int) : ℚ :=
  (1000000000 : ℚ) * (batchSizeOf rate : ℚ) / (rate : ℚ)

/-- The resulting `time.Duration` in nanoseconds: Go's float-to-integer
conversion truncates toward zero, which for the nonnegative quotients
arising from positive rates is the floor. -/
def tickIntervalNs (rate : Int) : Int := ⌊tickIntervalQ rate⌋

/-- A Go `float64` result, with the IEEE-754 special values that division
by zero produces (Go float division never panics). -/
inductive GoFloat where
  | fin : ℚ → GoFloat
  | posInf : GoFloat
  | negInf : GoFloat
  | nan : GoFloat
deriving DecidableEq, Repr

/-- Go `float64` division: finite operands with a zero divisor yield the
IEEE special values (±Inf, or NaN for 0/0) rather than a fault. The
non-finite operand cases are irrelevant here (inputs are always finite)
and are mapped to NaN. -/
def goDiv (x y : GoFloat) : GoFloat :=
  match x, y with
  | .fin a, .fin b =>
      if b = 0 then (if 0 < a then .posInf else if a < 0 then .negInf else .nan)
      else .fin (a / b)
  | _, _ => .nan

/-- The numeric computations of `printFinalStats` (main.go lines
197-210): average rate `total/elapsed`, file size in MiB, and average
entry size `size/total`. -/
def printFinalStatsCalc (total : Int) (elapsedSec : ℚ) (fileSize : Int) :
    GoFloat × GoFloat × GoFloat :=
  (goDiv (.fin (total : ℚ)) (.fin elapsedSec),
   goDiv (.fin (fileSize : ℚ)) (.fin (1024 * 1024)),
   goDiv (.fin (fileSize : ℚ)) (.fin (total : ℚ)))

/-- Escaping of one character inside a JSON string, as Go's
`encoding/json` encoder performs it for the characters that can occur
here: quote, backslash and the common control characters get two-byte
escapes; every other character passes through. -/
def jsonEscapeChar (c : Char) : List Char :=
  if c = '\"' then ['\\', '\"']
  else if c = '\\' then ['\\', '\\']
  else if c = '\n' then ['\\', 'n']
  else if c = '\r' then ['\\', 'r']
  else if c = '\t' then ['\\', 't']
  else [c]

/-- Escape a whole character list. -/
def escL : List Char → List Char
  | [] => []
  | c :: cs => jsonEscapeChar c ++ escL cs

/-- A JSON string literal: quote, escaped body, quote. -/
def jsonStr (s : String) : String :=
  String.mk ('\"' :: (escL s.data ++ ['\"']))

/-- Comma-join a list of already-rendered JSON members. -/
def joinComma : List String → String
  | [] => ""
  | [x] => x
  | x :: y :: xs => x ++ "," ++ joinComma (y :: xs)

/-- One `"key":value` member of a JSON object; the keys used here are
plain ASCII identifiers and need no escaping. -/
def renderField (kv : String × String) : String :=
  "\"" ++ kv.1 ++ "\":" ++ kv.2

/-- A compact JSON object from rendered members. -/
def renderObj (fs : List (String × String)) : String :=
  "\x7b" ++ joinComma (fs.map renderField) ++ "\x7d"

/-- The nested `location` object, keys from the `Location` struct tags. -/
def serializeLocation (renderF : ℚ → String) (loc : Location) : String :=
  renderObj [("lat", renderF loc.lat), ("lon", renderF loc.lon),
             ("mile_post", renderF loc.milePost)]

/-- The key/value members `json.Marshal` produces for a `SensorReading`,
in struct-field order, with `alert_level` omitted when empty
(`omitempty`).  Numeric rendering is abstracted by `renderF`. -/
def jsonFields (renderF : ℚ → String) (r : SensorReading) : List (String × String) :=
  [("sensor_id", jsonStr r.sensorId),
   ("timestamp", jsonStr r.timestamp),
   ("type", jsonStr r.type),
   ("value", renderF r.value),
   ("unit", jsonStr r.unit),
   ("location", serializeLocation renderF r.location),
   ("pipeline_id", jsonStr r.pipelineId),
   ("status", jsonStr r.status),
   ("quality_score", renderF r.quality)]
  ++ (if r.alertLevel = "" then [] else [("alert_level", jsonStr r.alertLevel)])

/-- The compact one-object serialization of a reading. -/
def serializeReading (renderF : ℚ → String) (r : SensorReading) : String :=
  renderObj (jsonFields renderF r)

/-- The required top-level keys of the output schema (§3 SensorReading);
`alert_level` is conditional and therefore not listed. -/
def requiredKeys : List String :=
  ["sensor_id", "timestamp", "type", "value", "unit", "location",
   "pipeline_id", "status", "quality_score"]

/-- A string is newline-free. -/
def nlFreeL (cs : List Char) : Bool := cs.all (fun c => c != '\n')

def nlFree (s : String) : Bool := nlFreeL s.data

/-- Number of newline bytes in a string — the number of complete lines
when every line is newline-terminated. -/
def countNl (s : String) : Nat := s.data.count '\n'

/-- State of the emission loop: everything written to the sink so far
and the cumulative `totalEntries` counter. -/
structure EmitState where
  out : String
  total : Nat
deriving DecidableEq, Repr

/-- One iteration of the batch body (main.go lines 142-148):
`data, _ := json.Marshal(reading)` discards the error — on failure the
payload is nil, i.e. empty — then the payload and a newline byte are
written and the counter is incremented unconditionally.  Serialization
is abstracted as `marshal`, with `none` standing for a marshal error. -/
def emitReading (marshal : SensorReading → Option String)
    (st : EmitState) (r : SensorReading) : EmitState :=
  let data := (marshal r).getD ""
  { out := st.out ++ data ++ "\n", total := st.total + 1 }

/-- Writing one whole batch: the inner `for range batchSize` loop. -/
def emitBatch (marshal : SensorReading → Option String)
    (st : EmitState) (rs : List SensorReading) : EmitState :=
  rs.foldl (emitReading marshal) st

/-- Lifecycle state of the emission loop: records written so far,
records durably flushed to the file, and whether the loop has returned. -/
structure LoopSt where
  total : Nat
  flushed : Nat
  stopped : Bool
deriving DecidableEq, Repr

/-- One iteration of the `for { select { ... } }` loop of `main`
(main.go lines 128-161), as a transition relation.  `sig` and `tick`
say which channels are ready at this `select`; Go's `select` chooses
among the ready cases by uniform random selection, so when both are
ready either constructor may apply — there is no priority.  `dl` says
whether the optional deadline has passed; it is checked only inside the
tick case, before the batch is written.  A batch is a single atomic
transition: the inner write loop contains no channel operation, and the
writer is flushed at the end of the signal case, the deadline case and
every batch. -/
inductive LoopStep (b : Nat) (sig tick dl : Bool) : LoopSt → LoopSt → Prop where
  | sigStop (t f : Nat) : sig = true →
      LoopStep b sig tick dl ⟨t, f, false⟩ ⟨t, t, true⟩
  | deadlineStop (t f : Nat) : tick = true → dl = true →
      LoopStep b sig tick dl ⟨t, f, false⟩ ⟨t, t, true⟩
  | batch (t f : Nat) : tick = true → dl = false →
      LoopStep b sig tick dl ⟨t, f, false⟩ ⟨t + b, t + b, false⟩

/-- Every profile in the registry has a nonnegative maximum. -/
theorem sensorTypes_max_nonneg : ∀ p ∈ sensorTypes, (0 : ℚ) ≤ p.max := by
  decide

/-- Every profile in the registry satisfies `min ≤ max`. -/
theorem sensorTypes_min_le_max : ∀ p ∈ sensorTypes, p.min ≤ p.max := by
  decide

/-- `List.getD` at an in-range index is a member of the list. -/
theorem getD_mem_of_lt {α : Type} (l : List α) (i : Nat) (d : α)
    (h : i < l.length) : l.getD i d ∈ l := by
  induction l generalizing i with
  | nil => simp at h
  | cons a as ih =>
    cases i with
    | zero => simp
    | succ n =>
      rw [List.getD_cons_succ]
      exact List.mem_cons_of_mem a (ih n (by simpa using h))

/-- C7: for every reading produced by `generateReading` (with the
quality draw in `[0,1)` as `rng.Float64` guarantees), `qualityScore`
lies in `[0.85, 1.0)`. -/
theorem c7_quality_range (d : RngDraws)
    (h0 : 0 ≤ d.uQuality) (h1 : d.uQuality < 1) :
    85/100 ≤ (generateReading d).quality ∧ (generateReading d).quality < 1 := by
  simp only [generateReading]
  constructor
  · nlinarith
  · nlinarith

/-- Concrete random draws used as witnesses; `uAnom = 1/100 < 2/100`
makes the anomaly branch fire. -/
def sampleDraws : RngDraws :=
  { typeIdx := 0, pipeIdx := 1, statusIdx := 4, alertIdx := 0,
    uValue := 1/2, uAnom := 1/100, uAnomMag := 1/2, idNum := 42,
    uQuality := 1/2, uLat := 1/2, uLon := 1/2, uMile := 1/2,
    now := "2026-01-01T00:00:00Z" }

theorem c7_quality_range_witness :
    85/100 ≤ (generateReading sampleDraws).quality
      ∧ (generateReading sampleDraws).quality < 1 :=
  c7_quality_range sampleDraws (by norm_num [sampleDraws]) (by norm_num [sampleDraws])

/-- C10: for every reading produced by `generateReading` (location draws
in `[0,1)`), latitude lies in `[25, 45)`, longitude in `[-105, -90)`,
and milePost in `[0, 500)`. -/
theorem c10_location_bounds (d : RngDraws)
    (hla0 : 0 ≤ d.uLat) (hla1 : d.uLat < 1)
    (hlo0 : 0 ≤ d.uLon) (hlo1 : d.uLon < 1)
    (hmi0 : 0 ≤ d.uMile) (hmi1 : d.uMile < 1) :
    (25 ≤ (generateReading d).location.lat ∧ (generateReading d).location.lat < 45)
    ∧ (-105 ≤ (generateReading d).location.lon ∧ (generateReading d).location.lon < -90)
    ∧ (0 ≤ (generateReading d).location.milePost ∧ (generateReading d).location.milePost < 500) := by
  simp only [generateReading]
  refine ⟨⟨?_, ?_⟩, ⟨?_, ?_⟩, ⟨?_, ?_⟩⟩ <;> nlinarith

theorem c10_location_bounds_witness :
    (25 ≤ (generateReading sampleDraws).location.lat
      ∧ (generateReading sampleDraws).location.lat < 45)
    ∧ (-105 ≤ (generateReading sampleDraws).location.lon
      ∧ (generateReading sampleDraws).location.lon < -90)
    ∧ (0 ≤ (generateReading sampleDraws).location.milePost
      ∧ (generateReading sampleDraws).location.milePost < 500) :=
  c10_location_bounds sampleDraws
    (by norm_num [sampleDraws]) (by norm_num [sampleDraws])
    (by norm_num [sampleDraws]) (by norm_num [sampleDraws])
    (by norm_num [sampleDraws]) (by norm_num [sampleDraws])

/-- C1: whenever the anomaly draw falls below the 0.02 threshold, the
reading's value is overridden to `profile.max + u * profile.max * 0.2`;
for every in-range profile index the overridden value is at least the
profile maximum; and if the drawn alert level was empty it is forced to
"medium". -/
theorem c1_anomaly_override (d : RngDraws)
    (ht : d.typeIdx < sensorTypes.length)
    (hm0 : 0 ≤ d.uAnomMag) (_hm1 : d.uAnomMag < 1)
    (ha : d.uAnom < 2/100) :
    (generateReading d).value
      = (sensorTypes.getD d.typeIdx dfltProfile).max
        + d.uAnomMag * (sensorTypes.getD d.typeIdx dfltProfile).max * (2/10)
    ∧ (sensorTypes.getD d.typeIdx dfltProfile).max ≤ (generateReading d).value
    ∧ (alertLevels.getD d.alertIdx "" = "" → (generateReading d).alertLevel = "medium") := by
  simp only [generateReading]
  set st := sensorTypes.getD d.typeIdx dfltProfile with hst
  have hmem : st ∈ sensorTypes := getD_mem_of_lt _ _ _ ht
  have hmax := sensorTypes_max_nonneg st hmem
  rw [if_pos ha, if_pos ha]
  refine ⟨rfl, ?_, ?_⟩
  · nlinarith [mul_nonneg hm0 hmax]
  · intro h
    rw [if_pos h]

theorem c1_anomaly_override_witness :
    (generateReading sampleDraws).value
      = (sensorTypes.getD sampleDraws.typeIdx dfltProfile).max
        + sampleDraws.uAnomMag * (sensorTypes.getD sampleDraws.typeIdx dfltProfile).max * (2/10)
    ∧ (sensorTypes.getD sampleDraws.typeIdx dfltProfile).max ≤ (generateReading sampleDraws).value
    ∧ (alertLevels.getD sampleDraws.alertIdx "" = ""
        → (generateReading sampleDraws).alertLevel = "medium") :=
  c1_anomaly_override sampleDraws (by decide)
    (by norm_num [sampleDraws]) (by norm_num [sampleDraws]) (by norm_num [sampleDraws])

/-- C2: with in-range draws, a non-anomalous reading's value lies in
`[profile.min, profile.max]` and an anomalous reading's value lies in
`[profile.max, profile.max * 1.2]`. -/
theorem c2_value_range (d : RngDraws)
    (ht : d.typeIdx < sensorTypes.length)
    (hv0 : 0 ≤ d.uValue) (hv1 : d.uValue < 1)
    (hm0 : 0 ≤ d.uAnomMag) (hm1 : d.uAnomMag < 1) :
    (¬ d.uAnom < 2/100 →
      (sensorTypes.getD d.typeIdx dfltProfile).min ≤ (generateReading d).value
      ∧ (generateReading d).value ≤ (sensorTypes.getD d.typeIdx dfltProfile).max)
    ∧ (d.uAnom < 2/100 →
      (sensorTypes.getD d.typeIdx dfltProfile).max ≤ (generateReading d).value
      ∧ (generateReading d).value ≤ (sensorTypes.getD d.typeIdx dfltProfile).max * (12/10)) := by
  simp only [generateReading]
  set st := sensorTypes.getD d.typeIdx dfltProfile with hst
  have hmem : st ∈ sensorTypes := getD_mem_of_lt _ _ _ ht
  have hmax := sensorTypes_max_nonneg st hmem
  have hmm := sensorTypes_min_le_max st hmem
  constructor
  · intro h
    rw [if_neg h]
    constructor
    · nlinarith [mul_nonneg hv0 (by linarith : (0:ℚ) ≤ st.max - st.min)]
    · nlinarith [mul_nonneg (by linarith : (0:ℚ) ≤ 1 - d.uValue)
        (by linarith : (0:ℚ) ≤ st.max - st.min)]
  · intro h
    rw [if_pos h]
    constructor
    · nlinarith [mul_nonneg hm0 hmax]
    · nlinarith [mul_nonneg (by linarith : (0:ℚ) ≤ 1 - d.uAnomMag) hmax]

theorem c2_value_range_witness :
    (¬ sampleDraws.uAnom < 2/100 →
      (sensorTypes.getD sampleDraws.typeIdx dfltProfile).min ≤ (generateReading sampleDraws).value
      ∧ (generateReading sampleDraws).value ≤ (sensorTypes.getD sampleDraws.typeIdx dfltProfile).max)
    ∧ (sampleDraws.uAnom < 2/100 →
      (sensorTypes.getD sampleDraws.typeIdx dfltProfile).max ≤ (generateReading sampleDraws).value
      ∧ (generateReading sampleDraws).value
        ≤ (sensorTypes.getD sampleDraws.typeIdx dfltProfile).max * (12/10)) :=
  c2_value_range sampleDraws (by decide)
    (by norm_num [sampleDraws]) (by norm_num [sampleDraws])
    (by norm_num [sampleDraws]) (by norm_num [sampleDraws])

/-- C3: for every positive target rate, the batch size of the emission
loop is `min 1000 rate` clamped to at least 1, the tick interval is the
real-valued quotient `10^9 ns * batchSize / rate`, and at rate 50000 the
batch size is 1000 and the interval is exactly 20 ms. -/
theorem c3_pacing (r : Int) (hr : 0 < r) :
    batchSizeOf r = max 1 (min 1000 r)
    ∧ tickIntervalQ r = (1000000000 : ℚ) * ((max 1 (min 1000 r) : Int) : ℚ) / (r : ℚ)
    ∧ batchSizeOf 50000 = 1000
    ∧ tickIntervalNs 50000 = 20000000 := by
  have hb : batchSizeOf r = max 1 (min 1000 r) := by
    simp only [batchSizeOf]
    split_ifs <;> omega
  have h50 : batchSizeOf 50000 = 1000 := by decide
  refine ⟨hb, ?_, h50, ?_⟩
  · rw [tickIntervalQ, hb]
  · have hq : tickIntervalQ 50000 = 20000000 := by
      rw [tickIntervalQ, h50]
      norm_num
    rw [tickIntervalNs, hq]
    norm_num

theorem c3_pacing_witness :
    batchSizeOf 7 = max 1 (min 1000 7)
    ∧ tickIntervalQ 7 = (1000000000 : ℚ) * ((max 1 (min 1000 7) : Int) : ℚ) / ((7 : Int) : ℚ)
    ∧ batchSizeOf 50000 = 1000
    ∧ tickIntervalNs 50000 = 20000000 :=
  c3_pacing 7 (by decide)

/-- C5: the final-statistics computations are total — for every record
count, elapsed time and file size they produce defined values, with the
zero-elapsed and zero-count divisions yielding the IEEE special values
(±Inf / NaN) exactly as Go float division does, never a fault. -/
theorem c5_stats_no_crash (total : Int) (elapsed : ℚ) (size : Int) :
    ((printFinalStatsCalc total elapsed size).1 =
      if elapsed = 0 then
        (if 0 < (total : ℚ) then GoFloat.posInf
         else if (total : ℚ) < 0 then GoFloat.negInf else GoFloat.nan)
      else GoFloat.fin ((total : ℚ) / elapsed))
    ∧ ((printFinalStatsCalc total elapsed size).2.2 =
      if (total : ℚ) = 0 then
        (if 0 < (size : ℚ) then GoFloat.posInf
         else if (size : ℚ) < 0 then GoFloat.negInf else GoFloat.nan)
      else GoFloat.fin ((size : ℚ) / (total : ℚ))) := by
  constructor <;> simp only [printFinalStatsCalc, goDiv]

theorem data_append_eq (a b : String) : (a ++ b).data = a.data ++ b.data := by
  cases a
  cases b
  rfl

theorem append_empty_str (s : String) : s ++ "" = s := by
  cases s with
  | mk l =>
    show String.mk (l ++ []) = String.mk l
    rw [List.append_nil]

theorem nlFreeL_append (l1 l2 : List Char) :
    nlFreeL (l1 ++ l2) = (nlFreeL l1 && nlFreeL l2) := by
  simp [nlFreeL]

theorem nlFree_append (a b : String) :
    nlFree (a ++ b) = (nlFree a && nlFree b) := by
  simp [nlFree, data_append_eq, nlFreeL_append]

theorem nlFreeL_jsonEscapeChar (c : Char) : nlFreeL (jsonEscapeChar c) = true := by
  simp only [jsonEscapeChar]
  split_ifs with h1 h2 h3 h4 h5 <;> simp_all [nlFreeL]

theorem nlFreeL_escL (cs : List Char) : nlFreeL (escL cs) = true := by
  induction cs with
  | nil => rfl
  | cons c cs ih => simp [escL, nlFreeL_append, nlFreeL_jsonEscapeChar, ih]

theorem nlFree_jsonStr (s : String) : nlFree (jsonStr s) = true := by
  have h := nlFreeL_escL s.data
  show nlFreeL ('\"' :: (escL s.data ++ ['\"'])) = true
  simp_all [nlFreeL]

theorem nlFree_joinComma (l : List String)
    (h : ∀ x ∈ l, nlFree x = true) : nlFree (joinComma l) = true := by
  induction l with
  | nil => rfl
  | cons x xs ih =>
    cases xs with
    | nil => exact h x (by simp)
    | cons y ys =>
      rw [joinComma, nlFree_append, nlFree_append]
      rw [h x (by simp), ih (fun z hz => h z (by simp [hz]))]
      rfl

theorem nlFree_renderObj (fs : List (String × String))
    (h : ∀ kv ∈ fs, nlFree kv.1 = true ∧ nlFree kv.2 = true) :
    nlFree (renderObj fs) = true := by
  rw [renderObj, nlFree_append, nlFree_append]
  have hj : nlFree (joinComma (fs.map renderField)) = true := by
    apply nlFree_joinComma
    intro x hx
    simp only [List.mem_map] at hx
    obtain ⟨kv, hkv, rfl⟩ := hx
    obtain ⟨h1, h2⟩ := h kv hkv
    rw [renderField, nlFree_append, nlFree_append, nlFree_append, h1, h2]
    rfl
  rw [hj]
  rfl

theorem nlFree_serializeLocation (renderF : ℚ → String)
    (hren : ∀ q, nlFree (renderF q) = true) (loc : Location) :
    nlFree (serializeLocation renderF loc) = true := by
  rw [serializeLocation]
  apply nlFree_renderObj
  intro kv hkv
  simp only [List.mem_cons, List.not_mem_nil, or_false] at hkv
  rcases hkv with rfl | rfl | rfl <;> exact ⟨rfl, hren _⟩

theorem nlFree_serializeReading (renderF : ℚ → String)
    (hren : ∀ q, nlFree (renderF q) = true) (r : SensorReading) :
    nlFree (serializeReading renderF r) = true := by
  rw [serializeReading]
  apply nlFree_renderObj
  rw [jsonFields]
  intro kv hkv
  rcases List.mem_append.mp hkv with hkv | hkv
  · simp only [List.mem_cons, List.not_mem_nil, or_false] at hkv
    rcases hkv with rfl | rfl | rfl | rfl | rfl | rfl | rfl | rfl | rfl
    · exact ⟨rfl, nlFree_jsonStr _⟩
    · exact ⟨rfl, nlFree_jsonStr _⟩
    · exact ⟨rfl, nlFree_jsonStr _⟩
    · exact ⟨rfl, hren _⟩
    · exact ⟨rfl, nlFree_jsonStr _⟩
    · exact ⟨rfl, nlFree_serializeLocation renderF hren _⟩
    · exact ⟨rfl, nlFree_jsonStr _⟩
    · exact ⟨rfl, nlFree_jsonStr _⟩
    · exact ⟨rfl, hren _⟩
  · by_cases halert : r.alertLevel = ""
    · rw [if_pos halert] at hkv
      exact absurd hkv (List.not_mem_nil kv)
    · rw [if_neg halert] at hkv
      simp only [List.mem_cons, List.not_mem_nil, or_false] at hkv
      rcases hkv with rfl
      exact ⟨rfl, nlFree_jsonStr _⟩

theorem countNl_eq_zero_of_nlFree (s : String) (h : nlFree s = true) :
    countNl s = 0 := by
  rw [countNl, List.count_eq_zero]
  simp only [nlFree, nlFreeL, List.all_eq_true, bne_iff_ne] at h
  intro hmem
  exact h '\n' hmem rfl

theorem emitBatch_total (m : SensorReading → Option String) :
    ∀ (rs : List SensorReading) (st : EmitState),
      (emitBatch m st rs).total = st.total + rs.length := by
  intro rs
  induction rs with
  | nil => intro st; rfl
  | cons r rs ih =>
    intro st
    show (emitBatch m (emitReading m st r) rs).total = st.total + (rs.length + 1)
    rw [ih]
    show st.total + 1 + rs.length = st.total + (rs.length + 1)
    omega

theorem countNl_emitReading (m : SensorReading → Option String)
    (hm : ∀ r s, m r = some s → nlFree s = true)
    (st : EmitState) (r : SensorReading) :
    countNl (emitReading m st r).out = countNl st.out + 1 := by
  show countNl ((st.out ++ (m r).getD "") ++ "\n") = countNl st.out + 1
  rw [countNl, data_append_eq, data_append_eq, List.count_append, List.count_append]
  have hdata : ((m r).getD "").data.count '\n' = 0 := by
    cases hmr : m r with
    | none => rfl
    | some s =>
      simp only [Option.getD_some]
      exact countNl_eq_zero_of_nlFree s (hm r s hmr)
  rw [hdata]
  rfl

theorem emitBatch_countNl (m : SensorReading → Option String)
    (hm : ∀ r s, m r = some s → nlFree s = true) :
    ∀ (rs : List SensorReading) (st : EmitState),
      countNl (emitBatch m st rs).out = countNl st.out + rs.length := by
  intro rs
  induction rs with
  | nil => intro st; rfl
  | cons r rs ih =>
    intro st
    show countNl (emitBatch m (emitReading m st r) rs).out = countNl st.out + (rs.length + 1)
    rw [ih, countNl_emitReading m hm]
    omega

theorem emitBatch_lastNl (m : SensorReading → Option String) :
    ∀ (rs : List SensorReading) (st : EmitState),
      (emitBatch m st rs).out = st.out
      ∨ (emitBatch m st rs).out.data.getLast? = some '\n' := by
  intro rs
  induction rs with
  | nil => intro st; exact Or.inl rfl
  | cons r rs ih =>
    intro st
    right
    have hstep : emitBatch m st (r :: rs) = emitBatch m (emitReading m st r) rs := rfl
    have hnl : (emitReading m st r).out.data.getLast? = some '\n' := by
      show ((st.out ++ (m r).getD "") ++ "\n").data.getLast? = some '\n'
      rw [data_append_eq]
      exact List.getLast?_concat _
    rcases ih (emitReading m st r) with he | he
    · rw [hstep, he]; exact hnl
    · rw [hstep]; exact he

/-- C4 counterexample: when marshalling a record fails, the loop does
NOT skip it — it still writes a newline byte for it and still increments
the counter.  Concretely, one failed record from the empty initial state
counts 1 (not 0) and writes "\n" (not nothing). -/
theorem c4_counterexample :
    (emitReading (fun _ => Option.none) ⟨"", 0⟩ (generateReading sampleDraws)).total = 1
    ∧ (emitReading (fun _ => Option.none) ⟨"", 0⟩ (generateReading sampleDraws)).out = "\n"
    ∧ ¬ ((emitReading (fun _ => Option.none) ⟨"", 0⟩ (generateReading sampleDraws)).total = 0
        ∧ (emitReading (fun _ => Option.none) ⟨"", 0⟩ (generateReading sampleDraws)).out = "") := by
  refine ⟨rfl, rfl, ?_⟩
  intro h
  exact absurd h.1 (by decide)

/-- C4 amended: on a marshal failure the error is silently discarded —
the loop writes the empty payload plus a newline (a blank line), still
increments the cumulative counter, and generation continues with the
remaining records without aborting. -/
theorem c4_failure_not_skipped (m : SensorReading → Option String)
    (st : EmitState) (r : SensorReading) (rs : List SensorReading)
    (h : m r = none) :
    emitReading m st r = ⟨st.out ++ "\n", st.total + 1⟩
    ∧ emitBatch m st (r :: rs) = emitBatch m ⟨st.out ++ "\n", st.total + 1⟩ rs
    ∧ (emitBatch m st (r :: rs)).total = st.total + 1 + rs.length := by
  have h1 : emitReading m st r = ⟨st.out ++ "\n", st.total + 1⟩ := by
    show EmitState.mk ((st.out ++ (m r).getD "") ++ "\n") (st.total + 1) = _
    rw [h, Option.getD_none, append_empty_str]
  have h2 : emitBatch m st (r :: rs) = emitBatch m ⟨st.out ++ "\n", st.total + 1⟩ rs := by
    show emitBatch m (emitReading m st r) rs = _
    rw [h1]
  refine ⟨h1, h2, ?_⟩
  rw [h2, emitBatch_total]

theorem c4_failure_not_skipped_witness :
    emitReading (fun _ => Option.none) ⟨"x\n", 5⟩ (generateReading sampleDraws)
      = ⟨"x\n" ++ "\n", 5 + 1⟩
    ∧ emitBatch (fun _ => Option.none) ⟨"x\n", 5⟩
        (generateReading sampleDraws :: [generateReading sampleDraws])
      = emitBatch (fun _ => Option.none) ⟨"x\n" ++ "\n", 5 + 1⟩ [generateReading sampleDraws]
    ∧ (emitBatch (fun _ => Option.none) ⟨"x\n", 5⟩
        (generateReading sampleDraws :: [generateReading sampleDraws])).total
      = 5 + 1 + [generateReading sampleDraws].length :=
  c4_failure_not_skipped (fun _ => Option.none) ⟨"x\n", 5⟩
    (generateReading sampleDraws) [generateReading sampleDraws] rfl

/-- C6: starting from an empty sink, emitting any batch of readings with
the program's serializer increments the counter exactly once per record
and writes exactly one newline-terminated line per record, so the final
total equals the number of newline-delimited lines in the output. -/
theorem c6_total_eq_lines (renderF : ℚ → String)
    (hren : ∀ q, nlFree (renderF q) = true) (rs : List SensorReading) :
    (emitBatch (fun r => some (serializeReading renderF r)) ⟨"", 0⟩ rs).total = rs.length
    ∧ countNl (emitBatch (fun r => some (serializeReading renderF r)) ⟨"", 0⟩ rs).out
        = rs.length
    ∧ (emitBatch (fun r => some (serializeReading renderF r)) ⟨"", 0⟩ rs).total
        = countNl (emitBatch (fun r => some (serializeReading renderF r)) ⟨"", 0⟩ rs).out
    ∧ ((emitBatch (fun r => some (serializeReading renderF r)) ⟨"", 0⟩ rs).out = ""
       ∨ (emitBatch (fun r => some (serializeReading renderF r)) ⟨"", 0⟩ rs).out.data.getLast?
          = some '\n') := by
  have hm : ∀ r s, (fun r => some (serializeReading renderF r)) r = some s
      → nlFree s = true := by
    intro r s h
    injection h with h
    rw [← h]
    exact nlFree_serializeReading renderF hren r
  have ht := emitBatch_total (fun r => some (serializeReading renderF r)) rs ⟨"", 0⟩
  have hc := emitBatch_countNl (fun r => some (serializeReading renderF r)) hm rs ⟨"", 0⟩
  have he := emitBatch_lastNl (fun r => some (serializeReading renderF r)) rs ⟨"", 0⟩
  refine ⟨by simpa using ht, ?_, ?_, he⟩
  · rw [hc]
    exact Nat.zero_add _
  · rw [ht, hc]
    rfl

theorem c6_total_eq_lines_witness :
    (emitBatch (fun r => some (serializeReading (fun _ => "0") r)) ⟨"", 0⟩
        [generateReading sampleDraws]).total = [generateReading sampleDraws].length
    ∧ countNl (emitBatch (fun r => some (serializeReading (fun _ => "0") r)) ⟨"", 0⟩
        [generateReading sampleDraws]).out = [generateReading sampleDraws].length
    ∧ (emitBatch (fun r => some (serializeReading (fun _ => "0") r)) ⟨"", 0⟩
        [generateReading sampleDraws]).total
      = countNl (emitBatch (fun r => some (serializeReading (fun _ => "0") r)) ⟨"", 0⟩
        [generateReading sampleDraws]).out
    ∧ ((emitBatch (fun r => some (serializeReading (fun _ => "0") r)) ⟨"", 0⟩
        [generateReading sampleDraws]).out = ""
       ∨ (emitBatch (fun r => some (serializeReading (fun _ => "0") r)) ⟨"", 0⟩
        [generateReading sampleDraws]).out.data.getLast? = some '\n') :=
  c6_total_eq_lines (fun _ => "0") (fun _ => rfl) [generateReading sampleDraws]

/-- C8: the serialized record is the single compact object
`"\x7b" ++ members ++ "\x7d"` on one line (newline-free), its member list
contains every required key, and the `alert_level` member is present
exactly when the reading's alert level is non-empty. -/
theorem c8_serialization (renderF : ℚ → String) (r : SensorReading)
    (hren : ∀ q, nlFree (renderF q) = true) :
    ("alert_level" ∈ (jsonFields renderF r).map Prod.fst ↔ r.alertLevel ≠ "")
    ∧ (∀ k ∈ requiredKeys, k ∈ (jsonFields renderF r).map Prod.fst)
    ∧ serializeReading renderF r
        = "\x7b" ++ joinComma ((jsonFields renderF r).map renderField) ++ "\x7d"
    ∧ nlFree (serializeReading renderF r) = true := by
  refine ⟨?_, ?_, rfl, nlFree_serializeReading renderF hren r⟩
  · by_cases h : r.alertLevel = "" <;> simp [jsonFields, h]
  · intro k hk
    fin_cases hk <;> by_cases h : r.alertLevel = "" <;> simp [jsonFields, h]

theorem c8_serialization_witness :
    ("alert_level" ∈ (jsonFields (fun _ => "0") (generateReading sampleDraws)).map Prod.fst
      ↔ (generateReading sampleDraws).alertLevel ≠ "")
    ∧ (∀ k ∈ requiredKeys,
        k ∈ (jsonFields (fun _ => "0") (generateReading sampleDraws)).map Prod.fst)
    ∧ serializeReading (fun _ => "0") (generateReading sampleDraws)
        = "\x7b" ++ joinComma ((jsonFields (fun _ => "0")
            (generateReading sampleDraws)).map renderField) ++ "\x7d"
    ∧ nlFree (serializeReading (fun _ => "0") (generateReading sampleDraws)) = true :=
  c8_serialization (fun _ => "0") (generateReading sampleDraws) (fun _ => rfl)

/-- C9 counterexample: Go's `select` has no priority between ready
cases.  In the loop's transition relation, with the stop signal ready at
every scheduling opportunity (and the ticker also ready), two further
full batches are a legal execution — so the signal neither takes
priority over the tick nor is guaranteed to be observed within one
in-flight batch; the formalized priority property is false. -/
theorem c9_counterexample :
    (LoopStep 1000 true true false ⟨0, 0, false⟩ ⟨1000, 1000, false⟩
      ∧ LoopStep 1000 true true false ⟨1000, 1000, false⟩ ⟨2000, 2000, false⟩)
    ∧ ¬ (∀ s s' : LoopSt, LoopStep 1000 true true false s s' → s'.stopped = true) := by
  refine ⟨⟨?_, ?_⟩, ?_⟩
  · exact LoopStep.batch 0 0 rfl rfl
  · exact LoopStep.batch 1000 1000 rfl rfl
  · intro h
    have := h ⟨0, 0, false⟩ ⟨1000, 1000, false⟩ (LoopStep.batch 0 0 rfl rfl)
    exact absurd this (by decide)

/-- C9 amended: a pending stop signal is taken at the next select
whenever the tick is not simultaneously ready (stopping immediately with
nothing further written); when both are ready the select chooses
nondeterministically, so the signal may be overtaken by further whole
batches; and every step either stops without writing or writes exactly
one whole batch, leaving the sink flushed — a partial batch is never
written. -/
theorem c9_signal_and_whole_batches (b : Nat) (sig tick dl : Bool)
    (s s' : LoopSt) (h : LoopStep b sig tick dl s s') :
    (sig = true → tick = false → s'.stopped = true ∧ s'.total = s.total)
    ∧ ((s'.total = s.total ∧ s'.stopped = true)
       ∨ (s'.total = s.total + b ∧ s'.stopped = false))
    ∧ s'.flushed = s'.total := by
  cases h with
  | sigStop t f hs => exact ⟨fun _ _ => ⟨rfl, rfl⟩, Or.inl ⟨rfl, rfl⟩, rfl⟩
  | deadlineStop t f htk hdl =>
      exact ⟨fun _ hf => absurd (htk.symm.trans hf) (by decide),
        Or.inl ⟨rfl, rfl⟩, rfl⟩
  | batch t f htk hdl =>
      exact ⟨fun _ hf => absurd (htk.symm.trans hf) (by decide),
        Or.inr ⟨rfl, rfl⟩, rfl⟩

theorem c9_signal_and_whole_batches_witness :
    ((true = true → false = false
        → (LoopSt.mk 5 5 true).stopped = true
          ∧ (LoopSt.mk 5 5 true).total = (LoopSt.mk 5 2 false).total)
    ∧ (((LoopSt.mk 5 5 true).total = (LoopSt.mk 5 2 false).total
          ∧ (LoopSt.mk 5 5 true).stopped = true)
       ∨ ((LoopSt.mk 5 5 true).total = (LoopSt.mk 5 2 false).total + 1000
          ∧ (LoopSt.mk 5 5 true).stopped = false))
    ∧ (LoopSt.mk 5 5 true).flushed = (LoopSt.mk 5 5 true).total) :=
  c9_signal_and_whole_batches 1000 true false false ⟨5, 2, false⟩ ⟨5, 5, true⟩
    (LoopStep.sigStop 5 2 rfl)

end SensorGen

